import Mathlib

/-!
Shallow embedding of the forecasting / reorder / anomaly-detection core of the
HyperSKU inventory platform, together with proofs checking the repository's
natural-language specification against the code.

Conventions of the embedding:

* JS numbers are modelled by `ℚ`; the only irrational values the core ever
  produces are standard deviations (`Math.sqrt`), modelled by `Real.sqrt`
  on a rational variance.  Division by zero follows Lean's `0` convention
  except where the JS `NaN` outcome is itself under scrutiny
  (`calculateMeanJs`).
* Timestamps are modelled at daily granularity: a record carries the day
  number of its timestamp, and `Date.getDay()` is the day number `% 7`
  (the fixed epoch offset of the real calendar is irrelevant to every
  property considered here).
* The repository carries two variants of `ForecastService`
  (`src/server/services/forecastService.ts` and the newer copy in
  `src/unnamed/part_006`).  The embedding follows the newer variant —
  mean-centered seasonality, median baseline, backtested accuracy — which is
  the one the specification's §4.1–§4.2 describe.  `AnomalyDetectionService`
  exists in a single copy (`src/server/services/anomalyDetection.ts`).
* Human-readable `description` strings of anomalies are presentational and
  elided from the `Anomaly` record; no property below depends on them.
-/

/-- A sales observation: day number of its timestamp and quantity sold.
Mirrors the `{ timestamp: Date; quantity: number }` records handed to the
forecast and anomaly services. -/
structure SaleRec where
  day : ℕ
  quantity : ℚ
deriving DecidableEq

/-- A JS number that may be `NaN`; used to render the JS semantics of
`calculateMean` faithfully on empty input (`0/0` is `NaN`). -/
inductive JsNum where
  | nan : JsNum
  | val (q : ℚ) : JsNum
deriving DecidableEq

/-- `ForecastService.calculateMean` / `AnomalyDetectionService.calculateMean`:
`values.reduce((sum, val) => sum + val, 0) / values.length`.  Lean's rational
division sends the empty case to `0`; every internal call site guards
non-emptiness, and the JS `NaN` outcome of the unguarded empty case is
captured by `calculateMeanJs`. -/
def calculateMean (values : List ℚ) : ℚ :=
  values.sum / values.length

/-- The same mean computation under JS division semantics: an empty list
divides `0` by `0`, which is `NaN`; a non-empty list of rationals yields the
rational mean. -/
def calculateMeanJs (values : List ℚ) : JsNum :=
  if values.length = 0 then JsNum.nan
  else JsNum.val (values.sum / values.length)

/-- `calculateStandardDeviation(values, mean)`:
`sqrt(values.reduce((s,v) => s + (v-mean)^2, 0) / values.length)`
(population standard deviation around the supplied mean). -/
noncomputable def calculateStandardDeviation (values : List ℚ) (mean : ℚ) : ℝ :=
  Real.sqrt (((values.map fun v => (v - mean) ^ 2).sum / values.length : ℚ) : ℝ)

/-- One step of the `forEach` loop of `detectSeasonality`: add the record's
quantity to its day-of-week bucket total and bump that bucket's count. -/
def seasonStep (acc : (Fin 7 → ℚ) × (Fin 7 → ℕ)) (r : SaleRec) :
    (Fin 7 → ℚ) × (Fin 7 → ℕ) :=
  let d : Fin 7 := ⟨r.day % 7, Nat.mod_lt _ (by norm_num)⟩
  (Function.update acc.1 d (acc.1 d + r.quantity),
   Function.update acc.2 d (acc.2 d + 1))

/-- Accumulator of the `forEach` loop of `detectSeasonality`: per-day-of-week
running totals (`weeklyPattern`) and observation counts (`weeklyCounts`). -/
def seasonAccum (data : List SaleRec) : (Fin 7 → ℚ) × (Fin 7 → ℕ) :=
  data.foldl seasonStep (fun _ => 0, fun _ => 0)

/-- `ForecastService.detectSeasonality(data, overallMean)` (part_006 variant):
buckets quantities by day of week, and returns, for each of the 7 days, the
bucket average minus the overall mean, or `0` for a day with no
observations. -/
def detectSeasonality (data : List SaleRec) (overallMean : ℚ) : List ℚ :=
  let acc := seasonAccum data
  List.ofFn fun i : Fin 7 =>
    if acc.2 i = 0 then 0 else acc.1 i / (acc.2 i : ℚ) - overallMean

/-- `ForecastService.calculateResiduals(data, mean, seasonalityDeviations)`:
residual of each observation against the level + seasonal prediction. -/
def calculateResiduals (data : List SaleRec) (mean : ℚ)
    (seasonalityDeviations : List ℚ) : List ℚ :=
  data.map fun r => r.quantity - (mean + seasonalityDeviations.getD (r.day % 7) 0)

/-- Metadata of a generated forecast: model name and (optional) accuracy
percentage.  The free-text `notes` string is presentational and elided. -/
structure ForecastMetadata where
  model : String
  accuracy : Option ℚ
deriving DecidableEq

/-- `ForecastResult` of `ForecastService`: median / p10 / p90 daily sequences
plus metadata.  Band values live in `ℝ` because the uncertainty term of the
seasonal path involves `Math.sqrt`. -/
structure ForecastResult where
  median : List ℝ
  p10 : List ℝ
  p90 : List ℝ
  metadata : ForecastMetadata

/-- `ForecastInput` of `ForecastService` (store and SKU ids are irrelevant to
the computation and elided). -/
structure ForecastInput where
  historicalData : List SaleRec
  horizonHours : ℕ

/-- `Math.ceil(horizonHours / 24)`: number of daily forecast points. -/
def forecastPointsOf (horizonHours : ℕ) : ℕ :=
  (⌈(horizonHours : ℚ) / 24⌉).toNat

/-- The baseline value of `ForecastService.generateBaseline` (part_006
variant): median of the sorted quantities, at least `1`, or the conservative
default `5` when there is no history at all.  `insertionSort` renders the JS
numeric `sort((a, b) => a - b)`. -/
def baselineValue (historicalData : List SaleRec) : ℚ :=
  if historicalData.length > 0 then
    let quantities :=
      (historicalData.map fun r => r.quantity).insertionSort (· ≤ ·)
    let medianIndex := quantities.length / 2
    let med :=
      if quantities.length % 2 = 0 then
        (quantities.getD (medianIndex - 1) 0 + quantities.getD medianIndex 0) / 2
      else quantities.getD medianIndex 0
    max 1 med
  else 5

/-- `ForecastService.generateBaseline(historicalData, horizonHours)`
(part_006 variant): every forecast day is the constant baseline value, with
`0.6×` / `1.8×` bands, model name `"baseline-median"`, accuracy `60`. -/
def generateBaseline (historicalData : List SaleRec) (horizonHours : ℕ) :
    ForecastResult :=
  let forecastPoints := forecastPointsOf horizonHours
  let baseValue := baselineValue historicalData
  { median := List.replicate forecastPoints (baseValue : ℝ)
    p10 := List.replicate forecastPoints ((baseValue * 0.6 : ℚ) : ℝ)
    p90 := List.replicate forecastPoints ((baseValue * 1.8 : ℚ) : ℝ)
    metadata := { model := "baseline-median", accuracy := some 60 } }

/-- `ForecastService.calculateBacktestAccuracy(data)` (part_006 variant):
hold out the last 7 records, fit mean + seasonality on the rest, take the
MAPE over held-out records with positive actual demand, and clamp
`(1 - MAPE) * 100` to `[0, 100]`; `70` on either insufficiency fallback. -/
def calculateBacktestAccuracy (data : List SaleRec) : ℚ :=
  if data.length < 14 then 70
  else
    let trainData := data.take (data.length - 7)
    let testData := data.drop (data.length - 7)
    if trainData.length < 7 then 70
    else
      let trainQuantities := trainData.map fun r => r.quantity
      let trainMean := calculateMean trainQuantities
      let trainSeasonality := detectSeasonality trainData trainMean
      let startDay := ((trainData.getLastD ⟨0, 0⟩).day % 7 + 1) % 7
      let apes := testData.enum.filterMap fun p =>
        let dayOfWeek := (startDay + p.1) % 7
        let forecast := trainMean + trainSeasonality.getD dayOfWeek 0
        let actual := p.2.quantity
        if actual > 0 then some |(forecast - actual) / actual| else none
      if apes.length = 0 then 70
      else
        let mape := apes.sum / apes.length
        max 0 (min 100 ((1 - mape) * 100))

/-- `ForecastService.generateForecast(input)` (part_006 variant): baseline
fallback below 7 points; otherwise level + mean-centered weekly seasonality
with residual-based uncertainty bands growing as `sqrt(i + 1)`, and a
backtested accuracy. -/
noncomputable def generateForecast (input : ForecastInput) : ForecastResult :=
  if input.historicalData.length < 7 then
    generateBaseline input.historicalData input.horizonHours
  else
    let quantities := input.historicalData.map fun r => r.quantity
    let mean := calculateMean quantities
    let seasonalityDeviations := detectSeasonality input.historicalData mean
    let residuals := calculateResiduals input.historicalData mean seasonalityDeviations
    let residualStd := calculateStandardDeviation residuals 0
    let forecastPoints := forecastPointsOf input.horizonHours
    let startDay := ((input.historicalData.getLastD ⟨0, 0⟩).day % 7 + 1) % 7
    let dayBase : ℕ → ℚ := fun i =>
      mean + seasonalityDeviations.getD ((startDay + i) % 7) 0
    let uncertainty : ℕ → ℝ := fun i => residualStd * Real.sqrt (i + 1)
    { median := (List.range forecastPoints).map fun i =>
        max 0 ((dayBase i : ℝ))
      p10 := (List.range forecastPoints).map fun i =>
        max 0 ((dayBase i : ℝ) - 1.28 * uncertainty i)
      p90 := (List.range forecastPoints).map fun i =>
        max 0 ((dayBase i : ℝ) + 1.28 * uncertainty i)
      metadata := { model := "level-seasonal-with-residuals"
                    accuracy := some (calculateBacktestAccuracy input.historicalData) } }

/-- SKU master data consumed by the reorder engine; `leadTimeDays` is a
nullable integer column. -/
structure Sku where
  leadTimeDays : Option ℕ
deriving DecidableEq

/-- One inventory row: nullable `onHand` / `reserved` integer columns. -/
structure InventoryRow where
  onHand : Option ℤ
  reserved : Option ℤ
deriving DecidableEq

/-- A stored forecast as read back by `generateReorderSuggestions`: the
persisted `medianForecast` / `p90Forecast` JSON number arrays. -/
structure StoredForecast where
  medianForecast : List ℚ
  p90Forecast : List ℚ
deriving DecidableEq

/-- The rationale payload of a reorder suggestion. -/
structure ReorderRationale where
  leadTimeDemand : ℚ
  availableStock : ℤ
  reorderPoint : ℚ
  aggressive : ℤ
deriving DecidableEq

/-- A created reorder suggestion record. -/
structure Reorder where
  suggestedQty : ℤ
  safetyStock : ℤ
  leadTimeDays : ℕ
  rationale : ReorderRationale
deriving DecidableEq

/-- The JS `x || d` default on a nullable non-negative integer: `null` and
`0` both fall back to `d`. -/
def jsOrDefault (x : Option ℕ) (d : ℕ) : ℕ :=
  match x with
  | none => d
  | some n => if n = 0 then d else n

/-- Loop body of `ForecastService.generateReorderSuggestions` (part_006
variant) for one inventory row that has a stored forecast and SKU master
data: decides whether a reorder suggestion is created and with which
figures. -/
def suggestReorder (inv : InventoryRow) (forecast : StoredForecast)
    (sku : Sku) : Option Reorder :=
  let leadTimeDays := jsOrDefault sku.leadTimeDays 7
  let medianForecast := forecast.medianForecast
  let p90Forecast := forecast.p90Forecast
  let leadTimeDemand :=
    (medianForecast.take (min leadTimeDays medianForecast.length)).sum
  let conservativeDemand :=
    (p90Forecast.take (min leadTimeDays p90Forecast.length)).sum
  let safetyStock : ℤ := ⌈leadTimeDemand * 0.2⌉
  let availableStock : ℤ := inv.onHand.getD 0 - inv.reserved.getD 0
  let reorderPoint : ℚ := leadTimeDemand + (safetyStock : ℚ)
  if (availableStock : ℚ) ≤ reorderPoint then
    some
      { suggestedQty :=
          ⌈conservativeDemand + (safetyStock : ℚ) - (availableStock : ℚ)⌉
        safetyStock := safetyStock
        leadTimeDays := leadTimeDays
        rationale :=
          { leadTimeDemand := leadTimeDemand
            availableStock := availableStock
            reorderPoint := reorderPoint
            aggressive :=
              ⌈leadTimeDemand * 1.5 + (safetyStock : ℚ) - (availableStock : ℚ)⌉ } }
  else none

/-- Anomaly types of `AnomalyDetectionService`. -/
inductive AnomalyType where
  | demand_spike | demand_drop | pattern_change
  | negative_stock | stale_inventory | excessive_reserved
deriving DecidableEq

/-- Anomaly severities. -/
inductive Severity where
  | low | medium | high
deriving DecidableEq

/-- An emitted anomaly record (description strings elided; every emitted
anomaly starts with status `"pending"`). -/
structure Anomaly where
  skuId : ℕ
  atype : AnomalyType
  severity : Severity
  status : String
deriving DecidableEq

/-- `AnomalyDetectionService.aggregateByDay(sales)`: one total per calendar
day, ascending by day.  The JS code groups into a `Map` keyed by the ISO date
string and then sorts the keys; since the keys are distinct, the pre-sort
grouping order is immaterial and the embedding takes the sorted distinct day
list directly. -/
def aggregateByDay (sales : List SaleRec) : List (ℕ × ℚ) :=
  let days := ((sales.map fun s => s.day).dedup).insertionSort (· ≤ ·)
  days.map fun d =>
    (d, ((sales.filter fun s => s.day = d).map fun s => s.quantity).sum)

open Classical in
/-- Demand-spike phase of `detectSkuAnomalies`: over the last three
daily-aggregated days, emit a spike when the day's total exceeds both
`mean + 2·std` and `2·mean`; severity `high` above `3·mean`, else
`medium`. -/
noncomputable def spikeAnomalies (skuId : ℕ) (mean : ℚ) (std : ℝ)
    (recentSales : List (ℕ × ℚ)) : List Anomaly :=
  let threshold : ℝ := (mean : ℝ) + 2 * std
  recentSales.filterMap fun d =>
    if ((d.2 : ℝ) > threshold ∧ d.2 > mean * 2) then
      some
        { skuId := skuId
          atype := AnomalyType.demand_spike
          severity := if d.2 > mean * 3 then Severity.high else Severity.medium
          status := "pending" }
    else none

/-- Demand-drop phase of `detectSkuAnomalies`. -/
def dropAnomalies (skuId : ℕ) (mean recentAvg : ℚ) : List Anomaly :=
  if recentAvg < mean * 0.3 ∧ mean > 5 then
    [{ skuId := skuId
       atype := AnomalyType.demand_drop
       severity := if recentAvg < mean * 0.1 then Severity.high else Severity.medium
       status := "pending" }]
  else []

/-- `AnomalyDetectionService.analyzeWeekdayPattern(sales)`: split raw records
into weekend (day of week 0 or 6) and weekday buckets; with at least 3
weekday and 2 weekend observations, flag an anomaly when the
weekend-to-weekday average ratio exceeds `2` or falls below `0.3`.  (The
rational-division convention sends the untypical all-zero-weekday corner to a
flagged ratio of `0` where JS would compute `NaN`/`Infinity`; no property
below evaluates that corner.) -/
def analyzeWeekdayPattern (sales : List SaleRec) : Bool :=
  let weekendSales :=
    (sales.filter fun s => s.day % 7 = 0 ∨ s.day % 7 = 6).map fun s => s.quantity
  let weekdaySales :=
    (sales.filter fun s => ¬(s.day % 7 = 0 ∨ s.day % 7 = 6)).map fun s => s.quantity
  if weekdaySales.length < 3 ∨ weekendSales.length < 2 then false
  else
    let ratio := calculateMean weekendSales / calculateMean weekdaySales
    decide (ratio > 2 ∨ ratio < 0.3)

/-- `AnomalyDetectionService.detectSkuAnomalies(storeId, skuId, sales)`:
skip below 7 raw sales records, otherwise sort by timestamp, aggregate by
day, and run the spike / drop / weekday-pattern scans in order. -/
noncomputable def detectSkuAnomalies (skuId : ℕ) (sales : List SaleRec) :
    List Anomaly :=
  if sales.length < 7 then []
  else
    let sorted := sales.insertionSort fun a b => a.day ≤ b.day
    let dailySales := aggregateByDay sorted
    let quantities := dailySales.map fun d => d.2
    let mean := calculateMean quantities
    let std := calculateStandardDeviation quantities mean
    let recentSales := dailySales.drop (dailySales.length - 3)
    spikeAnomalies skuId mean std recentSales
      ++ dropAnomalies skuId mean (calculateMean (recentSales.map fun d => d.2))
      ++ (if analyzeWeekdayPattern sorted then
            [{ skuId := skuId
               atype := AnomalyType.pattern_change
               severity := Severity.medium
               status := "pending" }]
          else [])

/-- A current inventory snapshot: nullable stock columns plus the day number
of the nullable `lastCountedAt` timestamp. -/
structure InvSnapshot where
  skuId : ℕ
  onHand : Option ℤ
  reserved : Option ℤ
  lastCountedAt : Option ℕ
deriving DecidableEq

/-- Negative-stock check of `detectInventoryAnomalies`:
`(inv.onHand || 0) < 0` emits a `high` `negative_stock` anomaly. -/
def negStockAnomalies (inv : InvSnapshot) : List Anomaly :=
  if inv.onHand.getD 0 < 0 then
    [{ skuId := inv.skuId
       atype := AnomalyType.negative_stock
       severity := Severity.high
       status := "pending" }]
  else []

/-- Stale-inventory check of `detectInventoryAnomalies`: with a set
`lastCountedAt` and more than 30 days since the count, emit a
`stale_inventory` anomaly, `medium` beyond 60 days and `low` otherwise. -/
def staleAnomalies (now : ℕ) (inv : InvSnapshot) : List Anomaly :=
  match inv.lastCountedAt with
  | none => []
  | some t =>
    if ((now : ℤ) - (t : ℤ)) > 30 then
      [{ skuId := inv.skuId
         atype := AnomalyType.stale_inventory
         severity :=
           if ((now : ℤ) - (t : ℤ)) > 60 then Severity.medium else Severity.low
         status := "pending" }]
    else []

/-- Excessive-reserved check of `detectInventoryAnomalies`:
`reserved > onHand * 0.8 && onHand > 0` emits a `medium`
`excessive_reserved` anomaly. -/
def excessiveReservedAnomalies (inv : InvSnapshot) : List Anomaly :=
  if ((inv.reserved.getD 0 : ℚ) > (inv.onHand.getD 0 : ℚ) * 0.8
      ∧ inv.onHand.getD 0 > 0) then
    [{ skuId := inv.skuId
       atype := AnomalyType.excessive_reserved
       severity := Severity.medium
       status := "pending" }]
  else []

/-- Loop body of `AnomalyDetectionService.detectInventoryAnomalies` for one
snapshot, given the current day number `now` (`Date.now()` at daily
granularity): negative-stock, stale-inventory and excessive-reserved
checks, in the source's order. -/
def perSnapshotInventoryAnomalies (now : ℕ) (inv : InvSnapshot) :
    List Anomaly :=
  negStockAnomalies inv ++ staleAnomalies now inv
    ++ excessiveReservedAnomalies inv

/-- `AnomalyDetectionService.detectInventoryAnomalies(storeId)`: the
per-snapshot checks over every current inventory row. -/
def detectInventoryAnomalies (now : ℕ) (inventoryItems : List InvSnapshot) :
    List Anomaly :=
  inventoryItems.flatMap (perSnapshotInventoryAnomalies now)

/-- A raw sales record of the anomaly engine's input stream, still carrying
its SKU id. -/
structure Sale where
  skuId : ℕ
  day : ℕ
  quantity : ℚ
deriving DecidableEq

/-- First-occurrence key order of the JS `Map` the sales are grouped into. -/
def insertionOrderKeys (l : List ℕ) : List ℕ :=
  l.foldl (fun acc x => if x ∈ acc then acc else acc ++ [x]) []

/-- The summary block of a detection run. -/
structure DetectionSummary where
  total : ℕ
  highSeverity : ℕ
  mediumSeverity : ℕ
  lowSeverity : ℕ
deriving DecidableEq

/-- `AnomalyDetectionResult`: the anomaly list plus its summary. -/
structure AnomalyDetectionResult where
  anomalies : List Anomaly
  summary : DetectionSummary
deriving DecidableEq

/-- `AnomalyDetectionService.detectAnomalies(storeId)` as a function of the
data it reads: the trailing-window sales, the current inventory snapshots and
the reference time.  Groups sales by SKU in first-occurrence order, runs the
per-SKU demand scan on each group, appends the inventory scan, and counts
the severities. -/
noncomputable def detectAnomalies (salesData : List Sale)
    (inventoryItems : List InvSnapshot) (now : ℕ) : AnomalyDetectionResult :=
  let skuAnomalies :=
    (insertionOrderKeys (salesData.map fun s => s.skuId)).flatMap fun id =>
      detectSkuAnomalies id
        ((salesData.filter fun s => s.skuId = id).map fun s =>
          { day := s.day, quantity := s.quantity })
  let anomalies := skuAnomalies ++ detectInventoryAnomalies now inventoryItems
  { anomalies := anomalies
    summary :=
      { total := anomalies.length
        highSeverity := (anomalies.filter fun a => a.severity = Severity.high).length
        mediumSeverity := (anomalies.filter fun a => a.severity = Severity.medium).length
        lowSeverity := (anomalies.filter fun a => a.severity = Severity.low).length } }

/-- The median of a finite list of rationals as the specification words it:
middle element of the sorted list, or the average of the two middle elements
for even length. -/
def listMedian (l : List ℚ) : ℚ :=
  let s := l.insertionSort (· ≤ ·)
  if s.length % 2 = 0 then
    (s.getD (s.length / 2 - 1) 0 + s.getD (s.length / 2) 0) / 2
  else s.getD (s.length / 2) 0

/-- The claim-side rendering of the backtesting description: hold out the
last 7 observations, fit mean + seasonality on the remaining training data,
take the MAPE only over held-out observations with nonzero actual demand,
and clamp `(1 - MAPE) * 100` to `[0, 100]`; the fixed fallback `70` when
fewer than 7 training points remain after the holdout (or when no held-out
observation has nonzero demand). -/
def backtestAccuracySpec (data : List SaleRec) : ℚ :=
  let trainData := data.take (data.length - 7)
  let testData := data.drop (data.length - 7)
  if trainData.length < 7 then 70
  else
    let trainMean := calculateMean (trainData.map fun r => r.quantity)
    let trainSeasonality := detectSeasonality trainData trainMean
    let startDay := ((trainData.getLastD ⟨0, 0⟩).day % 7 + 1) % 7
    let apes := testData.enum.filterMap fun p =>
      let forecast := trainMean + trainSeasonality.getD ((startDay + p.1) % 7) 0
      if p.2.quantity > 0 then some |(forecast - p.2.quantity) / p.2.quantity|
      else none
    if apes.length = 0 then 70
    else max 0 (min 100 ((1 - apes.sum / apes.length) * 100))

/-- Claim-side formula: `leadTimeDemand` is the sum of the first
`min(leadTimeDays, len(median))` stored median values, with the
`leadTimeDays || 7` default. -/
def claimLeadTimeDemand (f : StoredForecast) (sku : Sku) : ℚ :=
  (f.medianForecast.take
    (min (jsOrDefault sku.leadTimeDays 7) f.medianForecast.length)).sum

/-- Claim-side formula: `conservativeDemand` summed from the stored p90
values the same way. -/
def claimConservativeDemand (f : StoredForecast) (sku : Sku) : ℚ :=
  (f.p90Forecast.take
    (min (jsOrDefault sku.leadTimeDays 7) f.p90Forecast.length)).sum

/-- Claim-side formula: `safetyStock = ceil(leadTimeDemand × 0.2)`. -/
def claimSafetyStock (f : StoredForecast) (sku : Sku) : ℤ :=
  ⌈claimLeadTimeDemand f sku * (0.2 : ℚ)⌉

/-- Claim-side formula: `availableStock = onHand − reserved`. -/
def claimAvailableStock (inv : InventoryRow) : ℤ :=
  inv.onHand.getD 0 - inv.reserved.getD 0

/-- Claim-side formula: `reorderPoint = leadTimeDemand + safetyStock`. -/
def claimReorderPoint (f : StoredForecast) (sku : Sku) : ℚ :=
  claimLeadTimeDemand f sku + (claimSafetyStock f sku : ℚ)

/-- Fixture for the reorder witness: `onHand = 100`, `reserved = 90`. -/
def c1inv : InventoryRow := { onHand := some 100, reserved := some 90 }

/-- Fixture for the reorder witness: stored forecast of 7 days of constant
demand 20 on both bands. -/
def c1forecast : StoredForecast :=
  { medianForecast := List.replicate 7 20, p90Forecast := List.replicate 7 20 }

/-- Fixture for the reorder witness: a 7-day lead time SKU. -/
def c1sku : Sku := { leadTimeDays := some 7 }

/-- Fixture: one-record history for the baseline-fallback witness. -/
def c3data : List SaleRec := [{ day := 0, quantity := 3 }]

/-- Fixture: seven records of constant demand 10 for the backtest-accuracy
witness (short enough that the fallback accuracy 70 applies). -/
def c4data : List SaleRec :=
  [{ day := 0, quantity := 10 }, { day := 1, quantity := 10 },
   { day := 2, quantity := 10 }, { day := 3, quantity := 10 },
   { day := 4, quantity := 10 }, { day := 5, quantity := 10 },
   { day := 6, quantity := 10 }]

/-- Fixture: seven single-day records for the spike-characterization
witness. -/
def c6sales : List SaleRec :=
  [{ day := 0, quantity := 1 }, { day := 1, quantity := 1 },
   { day := 2, quantity := 1 }, { day := 3, quantity := 1 },
   { day := 4, quantity := 1 }, { day := 5, quantity := 1 },
   { day := 6, quantity := 1 }]

/-- Fixture refuting the daily-aggregation reading of the per-SKU guard:
seven raw sales records spread over only two calendar days (day 7, a
weekend day of week, and day 8, a weekday). -/
def c7sales : List SaleRec :=
  [{ day := 7, quantity := 10 }, { day := 7, quantity := 10 },
   { day := 8, quantity := 1 }, { day := 8, quantity := 1 },
   { day := 8, quantity := 1 }, { day := 8, quantity := 1 },
   { day := 8, quantity := 1 }]

/-- Fixture sales stream for the determinism witness. -/
def c9sales : List Sale := [{ skuId := 1, day := 0, quantity := 2 }]

/-- Fixture inventory for the determinism witness. -/
def c9inv : List InvSnapshot :=
  [{ skuId := 1, onHand := some 5, reserved := some 1, lastCountedAt := none }]

/-- Expected reorder record of the witness fixture: leadTimeDemand 140,
availableStock 10, reorderPoint 168, suggested 158, aggressive 228. -/
def c1reorderOut : Reorder :=
  { suggestedQty := 158
    safetyStock := 28
    leadTimeDays := 7
    rationale :=
      { leadTimeDemand := 140
        availableStock := 10
        reorderPoint := 168
        aggressive := 228 } }

/-- C8 counterexample: on the empty sequence the mean computation does not
fail with any explicit error — it evaluates `0 / 0` and returns the plain
JS number `NaN`.  No `EmptyInputError` / `InsufficientDataError` exists
anywhere in the code. -/
theorem mean_empty_returns_nan : calculateMeanJs [] = JsNum.nan := rfl

/-- C8 amended: `calculateMean` never raises; on the empty sequence it
returns the JS number `NaN` (the `0 / 0` quotient) and on any non-empty
sequence the rational arithmetic mean, so callers must guard emptiness by a
length check rather than by catching an error. -/
theorem mean_js_characterization (values : List ℚ) :
    calculateMeanJs values
      = if values = [] then JsNum.nan else JsNum.val (calculateMean values) := by
  unfold calculateMeanJs calculateMean
  by_cases h : values = []
  · subst h; simp
  · rw [if_neg (by simpa [List.length_eq_zero] using h), if_neg h]

/-- C9: `detectAnomalies` is deterministic — two runs over identical sales
records, identical inventory snapshots and an identical reference time
produce an identical anomaly list and an identical summary.  Every source of
run-to-run variation in the original (the clock behind `Date.now()` and the
store reads) is an explicit argument of the embedding, and the computation
contains no randomness. -/
theorem detectAnomalies_deterministic (s₁ s₂ : List Sale)
    (i₁ i₂ : List InvSnapshot) (n₁ n₂ : ℕ)
    (hs : s₁ = s₂) (hi : i₁ = i₂) (hn : n₁ = n₂) :
    (detectAnomalies s₁ i₁ n₁).anomalies = (detectAnomalies s₂ i₂ n₂).anomalies
    ∧ (detectAnomalies s₁ i₁ n₁).summary = (detectAnomalies s₂ i₂ n₂).summary := by
  subst hs; subst hi; subst hn
  exact ⟨rfl, rfl⟩

/-- Witness for the determinism theorem at a concrete sales stream,
inventory list and reference time. -/
theorem detectAnomalies_deterministic_witness :
    (detectAnomalies c9sales c9inv 0).anomalies
        = (detectAnomalies c9sales c9inv 0).anomalies
    ∧ (detectAnomalies c9sales c9inv 0).summary
        = (detectAnomalies c9sales c9inv 0).summary :=
  detectAnomalies_deterministic c9sales c9sales c9inv c9inv 0 0 rfl rfl rfl

/-- The stale-inventory check only ever emits `stale_inventory` anomalies:
any predicate rejecting those filters it to nothing. -/
theorem filter_staleAnomalies (now : ℕ) (inv : InvSnapshot) (p : Anomaly → Bool)
    (hp : ∀ sev,
      p (Anomaly.mk inv.skuId AnomalyType.stale_inventory sev "pending") = false) :
    (staleAnomalies now inv).filter p = [] := by
  unfold staleAnomalies
  cases inv.lastCountedAt with
  | none => rfl
  | some t =>
    dsimp only
    split_ifs <;> simp [List.filter, hp]

/-- C10: the inventory data-quality scan never emits both a
`negative_stock` and an `excessive_reserved` anomaly for one snapshot in the
same run — the former requires `onHand < 0` while the latter requires
`onHand > 0`. -/
theorem inventory_flags_exclusive (now : ℕ) (inv : InvSnapshot) :
    ((perSnapshotInventoryAnomalies now inv).filter
        fun a => a.atype = AnomalyType.negative_stock) = []
    ∨ ((perSnapshotInventoryAnomalies now inv).filter
        fun a => a.atype = AnomalyType.excessive_reserved) = [] := by
  by_cases h : inv.onHand.getD 0 < 0
  · right
    have h1 : (negStockAnomalies inv).filter
        (fun a => a.atype = AnomalyType.excessive_reserved) = [] := by
      unfold negStockAnomalies
      split_ifs
      rfl
    have h2 : (staleAnomalies now inv).filter
        (fun a => a.atype = AnomalyType.excessive_reserved) = [] :=
      filter_staleAnomalies now inv _ (fun _ => rfl)
    have h3 : excessiveReservedAnomalies inv = [] := by
      unfold excessiveReservedAnomalies
      rw [if_neg]
      rintro ⟨-, h2'⟩; omega
    simp [perSnapshotInventoryAnomalies, List.filter_append, h1, h2, h3]
  · left
    have h1 : negStockAnomalies inv = [] := by
      unfold negStockAnomalies; rw [if_neg h]
    have h2 : (staleAnomalies now inv).filter
        (fun a => a.atype = AnomalyType.negative_stock) = [] :=
      filter_staleAnomalies now inv _ (fun _ => rfl)
    have h3 : (excessiveReservedAnomalies inv).filter
        (fun a => a.atype = AnomalyType.negative_stock) = [] := by
      unfold excessiveReservedAnomalies; split_ifs <;> rfl
    simp [perSnapshotInventoryAnomalies, List.filter_append, h1, h2, h3]

/-- C1: for an inventory row with a stored forecast and SKU master data, a
reorder suggestion is created if and only if
`availableStock ≤ reorderPoint = leadTimeDemand + safetyStock`
(with `leadTimeDemand` summed over the first `min(leadTimeDays, len(median))`
median values and `safetyStock = ceil(leadTimeDemand × 0.2)`); a created
suggestion carries `suggestedQty = ceil(conservativeDemand + safetyStock −
availableStock)` and the unclamped aggressive alternative
`ceil(leadTimeDemand × 1.5 + safetyStock − availableStock)` in its
rationale. -/
theorem reorder_trigger_and_quantities (inv : InventoryRow)
    (f : StoredForecast) (sku : Sku) :
    ((suggestReorder inv f sku).isSome
        ↔ (claimAvailableStock inv : ℚ) ≤ claimReorderPoint f sku)
    ∧ ∀ r : Reorder, suggestReorder inv f sku = some r →
        r.suggestedQty
            = ⌈claimConservativeDemand f sku + (claimSafetyStock f sku : ℚ)
                - (claimAvailableStock inv : ℚ)⌉
        ∧ r.rationale.aggressive
            = ⌈claimLeadTimeDemand f sku * 1.5 + (claimSafetyStock f sku : ℚ)
                - (claimAvailableStock inv : ℚ)⌉ := by
  simp only [suggestReorder, claimAvailableStock, claimReorderPoint,
    claimSafetyStock, claimLeadTimeDemand, claimConservativeDemand]
  split_ifs with h
  · refine ⟨by simpa using h, fun r hr => ?_⟩
    rw [Option.some.injEq] at hr
    subst hr
    exact ⟨rfl, rfl⟩
  · refine ⟨by simpa using h, fun r hr => ?_⟩
    exact absurd hr (by simp)

/-- Witness for the reorder theorem at the specification's own example
(`onHand = 100`, `reserved = 90`, 7-day lead time, constant stored forecast
of 20/day on both bands): the suggestion is created, with
`suggestedQty = 158` and aggressive alternative `228`. -/
theorem reorder_trigger_and_quantities_witness :
    (suggestReorder c1inv c1forecast c1sku).isSome
    ∧ c1reorderOut.suggestedQty
        = ⌈claimConservativeDemand c1forecast c1sku
            + (claimSafetyStock c1forecast c1sku : ℚ)
            - (claimAvailableStock c1inv : ℚ)⌉
    ∧ c1reorderOut.rationale.aggressive
        = ⌈claimLeadTimeDemand c1forecast c1sku * 1.5
            + (claimSafetyStock c1forecast c1sku : ℚ)
            - (claimAvailableStock c1inv : ℚ)⌉ := by
  have h := reorder_trigger_and_quantities c1inv c1forecast c1sku
  have hsome : suggestReorder c1inv c1forecast c1sku = some c1reorderOut := by
    simp only [suggestReorder, c1inv, c1forecast, c1sku, c1reorderOut, jsOrDefault]
    norm_num [List.replicate]
  have hcond : (claimAvailableStock c1inv : ℚ) ≤ claimReorderPoint c1forecast c1sku := by
    norm_num [claimAvailableStock, claimReorderPoint, claimSafetyStock,
      claimLeadTimeDemand, c1inv, c1forecast, c1sku, jsOrDefault, List.replicate]
  exact ⟨h.1.mpr hcond, (h.2 c1reorderOut hsome).1, (h.2 c1reorderOut hsome).2⟩

/-- C7 amended: the per-SKU demand scan is skipped exactly on a raw-record
count — a SKU with fewer than 7 raw sales records in the window yields no
demand anomalies.  (The guard does not count daily-aggregated days.) -/
theorem sku_scan_raw_guard (skuId : ℕ) (sales : List SaleRec)
    (hlen : sales.length < 7) : detectSkuAnomalies skuId sales = [] := by
  unfold detectSkuAnomalies
  rw [if_pos hlen]

/-- Witness for the amended guard: an empty sales history is skipped. -/
theorem sku_scan_raw_guard_witness :
    ([] : List SaleRec).length < 7 ∧ detectSkuAnomalies 3 [] = [] :=
  ⟨by decide, sku_scan_raw_guard 3 [] (by decide)⟩

/-- C7 counterexample: `c7sales` has 7 raw records spread over only 2
daily-aggregated days, yet the per-SKU demand scan is not skipped — it emits
a `pattern_change` demand anomaly.  The scan's guard counts raw records, not
daily-aggregated days. -/
theorem sku_scan_guard_counterexample :
    7 ≤ c7sales.length
    ∧ (aggregateByDay (c7sales.insertionSort fun a b => a.day ≤ b.day)).length = 2
    ∧ detectSkuAnomalies 0 c7sales
        = [Anomaly.mk 0 AnomalyType.pattern_change Severity.medium "pending"] := by
  have hsorted : (c7sales.insertionSort fun a b => a.day ≤ b.day) = c7sales := by
    norm_num [c7sales, List.insertionSort, List.orderedInsert]
  have hdaily : aggregateByDay c7sales = [(7, 20), (8, 5)] := by
    norm_num [aggregateByDay, c7sales, List.dedup, List.insert, List.insertionSort,
      List.orderedInsert, List.filter]
  have hmean : calculateMean [(20 : ℚ), 5] = 25 / 2 := by
    norm_num [calculateMean]
  have hspike : ∀ s : ℝ,
      spikeAnomalies 0 (25 / 2) s [(7, 20), (8, 5)] = [] := by
    intro s
    simp only [spikeAnomalies]
    rw [List.filterMap_eq_nil_iff]
    intro a ha
    fin_cases ha
    · rw [if_neg]
      rintro ⟨-, h2⟩
      norm_num at h2
    · rw [if_neg]
      rintro ⟨-, h2⟩
      norm_num at h2
  have hdropA : dropAnomalies 0 (25 / 2) (25 / 2) = [] := by
    unfold dropAnomalies
    rw [if_neg]
    rintro ⟨h1, -⟩
    norm_num at h1
  have hpat : analyzeWeekdayPattern c7sales = true := by
    norm_num [analyzeWeekdayPattern, c7sales, List.filter, calculateMean]
  refine ⟨by decide, ?_, ?_⟩
  · rw [hsorted, hdaily]
    rfl
  · unfold detectSkuAnomalies
    rw [if_neg (by decide)]
    simp only [hsorted, hdaily, List.map_cons, List.map_nil, List.length_cons,
      List.length_nil, hmean]
    rw [show ((0 : ℕ) + 1 + 1 - 3) = 0 from rfl]
    rw [List.drop_zero]
    rw [hspike]
    rw [show calculateMean (List.map (fun d => d.2) [((7 : ℕ), (20 : ℚ)), (8, 5)])
          = 25 / 2 from by norm_num [calculateMean]]
    rw [hdropA, hpat]
    simp

/-- Fold invariant of the seasonality accumulator: starting from any state,
folding the data adds, per day-of-week bucket, the total quantity and count
of the records falling in that bucket. -/
theorem seasonAccum_foldl (data : List SaleRec)
    (pc : (Fin 7 → ℚ) × (Fin 7 → ℕ)) (i : Fin 7) :
    ((data.foldl seasonStep pc).1 i
        = pc.1 i + ((data.filter fun r => r.day % 7 = (i : ℕ)).map
            fun r => r.quantity).sum)
    ∧ ((data.foldl seasonStep pc).2 i
        = pc.2 i + (data.filter fun r => r.day % 7 = (i : ℕ)).length) := by
  induction data generalizing pc with
  | nil => simp
  | cons r t ih =>
    rw [List.foldl_cons]
    rcases ih (seasonStep pc r) with ⟨ih1, ih2⟩
    by_cases h : r.day % 7 = (i : ℕ)
    · have hd : (⟨r.day % 7, Nat.mod_lt _ (by norm_num)⟩ : Fin 7) = i :=
        Fin.ext h
      have hfil : (r :: t).filter (fun r => r.day % 7 = (i : ℕ))
          = r :: t.filter fun r => r.day % 7 = (i : ℕ) :=
        List.filter_cons_of_pos (by simpa using h)
      refine ⟨?_, ?_⟩
      · rw [ih1, hfil]
        simp only [seasonStep, hd, Function.update_same, List.map_cons,
          List.sum_cons]
        ring
      · rw [ih2, hfil]
        simp only [seasonStep, hd, Function.update_same, List.length_cons]
        omega
    · have hd : (⟨r.day % 7, Nat.mod_lt _ (by norm_num)⟩ : Fin 7) ≠ i :=
        fun hh => h (congrArg Fin.val hh)
      have hfil : (r :: t).filter (fun r => r.day % 7 = (i : ℕ))
          = t.filter fun r => r.day % 7 = (i : ℕ) :=
        List.filter_cons_of_neg (by simpa using h)
      refine ⟨?_, ?_⟩
      · rw [ih1, hfil]
        simp only [seasonStep, Function.update_noteq (Ne.symm hd)]
      · rw [ih2, hfil]
        simp only [seasonStep, Function.update_noteq (Ne.symm hd)]

/-- C5: the weekly-seasonality computation returns exactly 7 values, the
value for day of week `i` being that bucket's average quantity minus the
overall mean, and `0` for a day of week with no observations. -/
theorem seasonality_deviations (data : List SaleRec) (overallMean : ℚ)
    (i : Fin 7) :
    (detectSeasonality data overallMean).length = 7
    ∧ (detectSeasonality data overallMean).getD i 0
        = (if (data.filter fun r => r.day % 7 = (i : ℕ)) = [] then 0
           else calculateMean ((data.filter fun r => r.day % 7 = (i : ℕ)).map
               fun r => r.quantity) - overallMean) := by
  have hacc := seasonAccum_foldl data (fun _ => 0, fun _ => 0) i
  rcases hacc with ⟨h1, h2⟩
  constructor
  · simp [detectSeasonality]
  · unfold detectSeasonality
    rw [List.getD_eq_getElem?_getD, List.getElem?_ofFn, List.ofFnNthVal,
      dif_pos i.isLt]
    simp only [Fin.eta, Option.getD_some]
    have h1' : (seasonAccum data).1 i
        = ((data.filter fun r => r.day % 7 = (i : ℕ)).map
            fun r => r.quantity).sum := by
      rw [seasonAccum, h1]; simp
    have h2' : (seasonAccum data).2 i
        = (data.filter fun r => r.day % 7 = (i : ℕ)).length := by
      rw [seasonAccum, h2]; simp
    rw [h1', h2']
    by_cases hz : (data.filter fun r => r.day % 7 = (i : ℕ)) = []
    · rw [if_pos (by rw [hz]; rfl), if_pos hz]
    · rw [if_neg (by simpa [List.length_eq_zero] using hz), if_neg hz,
        calculateMean, List.length_map]

/-- C4: with at least 7 historical points the forecast metadata's accuracy
is the backtested one, and the backtest computes exactly what the
specification describes — last 7 observations held out, mean + seasonality
fit on the rest, MAPE only over held-out observations with nonzero demand,
`accuracy = clamp(0, 100, (1 − MAPE) × 100)`, fallback `70` when fewer than
7 training points remain after the holdout. -/
theorem forecast_accuracy_backtested (data : List SaleRec) (h : ℕ)
    (hlen : 7 ≤ data.length) :
    (generateForecast ⟨data, h⟩).metadata.accuracy
        = some (calculateBacktestAccuracy data)
    ∧ calculateBacktestAccuracy data = backtestAccuracySpec data := by
  constructor
  · unfold generateForecast
    rw [if_neg (Nat.not_lt.mpr hlen)]
  · by_cases h14 : data.length < 14
    · rw [calculateBacktestAccuracy, if_pos h14, backtestAccuracySpec]
      rw [if_pos]
      simp only [List.length_take]
      omega
    · rw [calculateBacktestAccuracy, if_neg h14, backtestAccuracySpec]

/-- Witness for the backtested-accuracy theorem on a 7-point history (which
takes the insufficient-training fallback of 70 on both sides). -/
theorem forecast_accuracy_backtested_witness :
    7 ≤ c4data.length
    ∧ ((generateForecast ⟨c4data, 168⟩).metadata.accuracy
          = some (calculateBacktestAccuracy c4data)
        ∧ calculateBacktestAccuracy c4data = backtestAccuracySpec c4data) :=
  ⟨by decide, forecast_accuracy_backtested c4data 168 (by decide)⟩

/-- C3: on fewer than 7 historical points `generateForecast` returns the
baseline forecast — the metadata model is the baseline variant (never the
seasonal model) and every forecast day carries the one constant baseline
value: the median of the available quantities floored at 1, or 5 when there
is no history at all. -/
theorem forecast_baseline_fallback (data : List SaleRec) (h : ℕ)
    (hlen : data.length < 7) :
    (generateForecast ⟨data, h⟩).metadata.model = "baseline-median"
    ∧ (generateForecast ⟨data, h⟩).metadata.model ≠ "level-seasonal-with-residuals"
    ∧ (generateForecast ⟨data, h⟩).median
        = List.replicate (forecastPointsOf h) ((baselineValue data : ℚ) : ℝ)
    ∧ (data = [] → baselineValue data = 5)
    ∧ (data ≠ [] → 1 ≤ baselineValue data
        ∧ baselineValue data = max 1 (listMedian (data.map fun r => r.quantity))) := by
  have hout : generateForecast ⟨data, h⟩ = generateBaseline data h := by
    unfold generateForecast
    rw [if_pos hlen]
  refine ⟨?_, ?_, ?_, ?_, ?_⟩
  · rw [hout]; rfl
  · rw [hout]
    show "baseline-median" ≠ "level-seasonal-with-residuals"
    decide
  · rw [hout]; rfl
  · intro hd; subst hd; rfl
  · intro hd
    have hpos : data.length > 0 := List.length_pos.mpr hd
    constructor
    · unfold baselineValue
      rw [if_pos hpos]
      exact le_max_left _ _
    · unfold baselineValue listMedian
      rw [if_pos hpos]

/-- Witness for the baseline-fallback theorem on a one-point history. -/
theorem forecast_baseline_fallback_witness :
    c3data.length < 7
    ∧ ((generateForecast ⟨c3data, 168⟩).metadata.model = "baseline-median"
      ∧ (generateForecast ⟨c3data, 168⟩).metadata.model
          ≠ "level-seasonal-with-residuals"
      ∧ (generateForecast ⟨c3data, 168⟩).median
          = List.replicate (forecastPointsOf 168) ((baselineValue c3data : ℚ) : ℝ)
      ∧ (c3data = [] → baselineValue c3data = 5)
      ∧ (c3data ≠ [] → 1 ≤ baselineValue c3data
          ∧ baselineValue c3data
              = max 1 (listMedian (c3data.map fun r => r.quantity)))) :=
  ⟨by decide, forecast_baseline_fallback c3data 168 (by decide)⟩

/-- The baseline value is never negative: it is either `max 1 (median)` or
the default `5`. -/
theorem baselineValue_nonneg (historicalData : List SaleRec) :
    0 ≤ baselineValue historicalData := by
  unfold baselineValue
  split_ifs
  · exact le_trans zero_le_one (le_max_left _ _)
  · norm_num

/-- A standard deviation is a square root, hence non-negative. -/
theorem calculateStandardDeviation_nonneg (values : List ℚ) (mean : ℚ) :
    0 ≤ calculateStandardDeviation values mean :=
  Real.sqrt_nonneg _

/-- C2: every forecast returned by `generateForecast` — baseline path and
seasonal path alike — has equal-length bands with
`0 ≤ p10[i] ≤ median[i] ≤ p90[i]` at every index. -/
theorem forecast_bands_monotone (input : ForecastInput) :
    (generateForecast input).p10.length = (generateForecast input).median.length
    ∧ (generateForecast input).p90.length = (generateForecast input).median.length
    ∧ ∀ i : ℕ,
        0 ≤ (generateForecast input).p10.getD i 0
        ∧ (generateForecast input).p10.getD i 0
            ≤ (generateForecast input).median.getD i 0
        ∧ (generateForecast input).median.getD i 0
            ≤ (generateForecast input).p90.getD i 0 := by
  by_cases hc : input.historicalData.length < 7
  · have hout : generateForecast input
        = generateBaseline input.historicalData input.horizonHours := by
      unfold generateForecast
      rw [if_pos hc]
    have hb : (0 : ℚ) ≤ baselineValue input.historicalData :=
      baselineValue_nonneg input.historicalData
    rw [hout]
    unfold generateBaseline
    refine ⟨by simp, by simp, fun i => ?_⟩
    by_cases hi : i < forecastPointsOf input.horizonHours
    · rw [List.getD_eq_getElem?_getD, List.getElem?_replicate, if_pos hi,
        List.getD_eq_getElem?_getD, List.getElem?_replicate, if_pos hi,
        List.getD_eq_getElem?_getD, List.getElem?_replicate, if_pos hi]
      simp only [Option.getD_some]
      refine ⟨?_, ?_, ?_⟩
      · exact_mod_cast mul_nonneg hb (by norm_num : (0 : ℚ) ≤ 0.6)
      · exact_mod_cast mul_le_of_le_one_right hb (by norm_num : (0.6 : ℚ) ≤ 1)
      · exact_mod_cast le_mul_of_one_le_right hb (by norm_num : (1 : ℚ) ≤ 1.8)
    · rw [List.getD_eq_default _ _ (by simpa using Nat.le_of_not_lt hi),
        List.getD_eq_default _ _ (by simpa using Nat.le_of_not_lt hi),
        List.getD_eq_default _ _ (by simpa using Nat.le_of_not_lt hi)]
      norm_num
  · unfold generateForecast
    rw [if_neg hc]
    dsimp only
    refine ⟨by simp, by simp, fun i => ?_⟩
    have hu : (0 : ℝ)
        ≤ calculateStandardDeviation
            (calculateResiduals input.historicalData
              (calculateMean (input.historicalData.map fun r => r.quantity))
              (detectSeasonality input.historicalData
                (calculateMean (input.historicalData.map fun r => r.quantity)))) 0
          * Real.sqrt ((i : ℝ) + 1) :=
      mul_nonneg (calculateStandardDeviation_nonneg _ _) (Real.sqrt_nonneg _)
    by_cases hi : i < forecastPointsOf input.horizonHours
    · rw [List.getD_eq_getElem?_getD, List.getElem?_map, List.getElem?_range hi,
        List.getD_eq_getElem?_getD, List.getElem?_map, List.getElem?_range hi,
        List.getD_eq_getElem?_getD, List.getElem?_map, List.getElem?_range hi]
      refine ⟨le_max_left _ _, max_le_max (le_refl 0) (by linarith),
        max_le_max (le_refl 0) (by linarith)⟩
    · rw [List.getD_eq_default _ _ (by simpa using Nat.le_of_not_lt hi),
        List.getD_eq_default _ _ (by simpa using Nat.le_of_not_lt hi),
        List.getD_eq_default _ _ (by simpa using Nat.le_of_not_lt hi)]
      norm_num

open Classical in
/-- C6: in the per-SKU demand scan, a `demand_spike` anomaly is emitted for
a day of the last 3 daily-aggregated days exactly when its total exceeds
both `mean + 2·stddev` and `2·mean`; an emitted spike is `high` exactly when
the total exceeds `3·mean`, and `medium` otherwise. -/
theorem spike_emission_characterization (skuId : ℕ) (sales : List SaleRec)
    (h7 : 7 ≤ sales.length) :
    ((detectSkuAnomalies skuId sales).filter
        fun a => a.atype = AnomalyType.demand_spike)
      = (let daily := aggregateByDay (sales.insertionSort fun a b => a.day ≤ b.day)
         let m := calculateMean (daily.map fun d => d.2)
         let s := calculateStandardDeviation (daily.map fun d => d.2) m
         (daily.drop (daily.length - 3)).filterMap fun d =>
           if ((d.2 : ℝ) > (m : ℝ) + 2 * s ∧ d.2 > 2 * m) then
             some (Anomaly.mk skuId AnomalyType.demand_spike
               (if d.2 > 3 * m then Severity.high else Severity.medium) "pending")
           else none) := by
  have hspike_self : ∀ (m : ℚ) (s : ℝ) (recent : List (ℕ × ℚ)),
      (spikeAnomalies skuId m s recent).filter
          (fun a => a.atype = AnomalyType.demand_spike)
        = spikeAnomalies skuId m s recent := by
    intro m s recent
    apply List.filter_eq_self.mpr
    intro a ha
    simp only [spikeAnomalies] at ha
    rcases List.mem_filterMap.mp ha with ⟨d, -, hd⟩
    split_ifs at hd
    all_goals rw [Option.some.injEq] at hd; subst hd; rfl
  have hdrop_none : ∀ m ravg : ℚ,
      (dropAnomalies skuId m ravg).filter
          (fun a => a.atype = AnomalyType.demand_spike) = [] := by
    intro m ravg
    unfold dropAnomalies
    split_ifs <;> rfl
  have hpat_none : ∀ b : Bool,
      ((if b then
          [Anomaly.mk skuId AnomalyType.pattern_change Severity.medium "pending"]
        else []).filter fun a => a.atype = AnomalyType.demand_spike) = [] := by
    intro b
    cases b <;> rfl
  unfold detectSkuAnomalies
  rw [if_neg (Nat.not_lt.mpr h7)]
  dsimp only
  rw [List.filter_append, List.filter_append, hspike_self, hdrop_none,
    hpat_none, List.append_nil, List.append_nil]
  unfold spikeAnomalies
  dsimp only
  apply List.filterMap_congr
  intro d _
  refine if_congr (and_congr Iff.rfl (by rw [mul_comm])) ?_ rfl
  rw [mul_comm]

open Classical in
/-- Witness for the spike characterization at a concrete 7-record history. -/
theorem spike_emission_characterization_witness :
    7 ≤ c6sales.length
    ∧ ((detectSkuAnomalies 0 c6sales).filter
          fun a => a.atype = AnomalyType.demand_spike)
        = (let daily := aggregateByDay (c6sales.insertionSort fun a b => a.day ≤ b.day)
           let m := calculateMean (daily.map fun d => d.2)
           let s := calculateStandardDeviation (daily.map fun d => d.2) m
           (daily.drop (daily.length - 3)).filterMap fun d =>
             if ((d.2 : ℝ) > (m : ℝ) + 2 * s ∧ d.2 > 2 * m) then
               some (Anomaly.mk 0 AnomalyType.demand_spike
                 (if d.2 > 3 * m then Severity.high else Severity.medium) "pending")
             else none) :=
  ⟨by decide, spike_emission_characterization 0 c6sales (by decide)⟩
